import Mathlib

/-!
Verification development for the webosce/nyx-modules GPS NMEA parser core
(src/gps/parser_nmea.cpp).

Shallow embedding conventions:
* C `double` fields become `ℚ` (all constants appearing in the source,
  such as `0.514`, `-1` and `0`, are exact rationals, so no rounding
  behaviour is lost for the properties verified here).
* C `int` fields become `ℤ` (or `ℕ` for values used as counts/offsets).
* The consumer callbacks (`parser_loc_cb`, `parser_sv_cb`,
  `parser_nmea_cb`, `parser_status_cb`) are modelled by an `Event` trace:
  each call appends one event, in call order.
* The vendored CNMEAParser library (class `CNMEAParser`:
  `ProcessNMEABuffer`, `GetGPGGA`, `GetGPGSV`, `GetGPGSA`, `GetGPRMC`) is
  part of the repository but is not under src/, so it is modelled from the
  spec as oracles: a decode oracle supplying the per-sentence records, and
  a buffer-processing oracle for the read loop.
-/

/-- The aggregate GPS fix state (`gps_data` member `mGpsData` of
`ParserNmea`): latitude, longitude, altitude, speed (m/s), direction,
horizontal accuracy.  C doubles are embedded as `ℚ`. -/
structure GpsData where
  latitude : ℚ
  longitude : ℚ
  altitude : ℚ
  speed : ℚ
  direction : ℚ
  horizAccuracy : ℚ
deriving DecidableEq

/-- The all-zero `GpsData`, as produced by `memset(&mGpsData, 0, ...)`. -/
def gpsDataZero : GpsData :=
  { latitude := 0, longitude := 0, altitude := 0, speed := 0
    direction := 0, horizAccuracy := 0 }

/-- Payload of the location callback (`GpsLocation` filled in
`ParserNmea::sendLocationUpdates`, lines 46-58). -/
structure GpsLocation where
  latitude : ℚ
  longitude : ℚ
  altitude : ℚ
  speed : ℚ
  accuracy : ℚ
  timestamp : ℤ
deriving DecidableEq

/-- One entry of the satellite list in the satellite-status callback
payload (`GpsSvInfo`). -/
structure GpsSvInfo where
  prn : ℤ
  snr : ℚ
  elevation : ℚ
  azimuth : ℚ
deriving DecidableEq

/-- Payload of the satellite-status callback (`GpsSvStatus` filled in
`ParserNmea::SetGpsGSV_Data`).  The C struct holds a fixed-capacity array
`sv_list`; the embedding records the sequence of entries actually written
by the copy loop, in index order. -/
structure GpsSvStatus where
  num_svs : ℕ
  sv_list : List GpsSvInfo
deriving DecidableEq

/-- Session status values (`NYX_GPS_STATUS_SESSION_BEGIN` /
`NYX_GPS_STATUS_SESSION_END`) sent through `SetGpsStatus`. -/
inductive GpsStatusVal where
  | sessionBegin : GpsStatusVal
  | sessionEnd : GpsStatusVal
deriving DecidableEq

/-- One consumer-callback invocation.  The four constructors correspond to
the four callback sinks `parser_loc_cb`, `parser_sv_cb`, `parser_nmea_cb`
(timestamp, raw text, strlen) and `parser_status_cb`. -/
inductive Event where
  | location : GpsLocation → Event
  | svStatus : GpsSvStatus → Event
  | nmea : ℤ → String → ℕ → Event
  | status : GpsStatusVal → Event
deriving DecidableEq

/-- The GGA record decoded by the NMEA library
(`CNMEAParserData::GGA_DATA_T`); only the fields consumed by
`SetGpsGGA_Data` (lines 80-83) are carried (the remaining fields are used
only in debug logging). -/
structure GGA_DATA where
  m_dLatitude : ℚ
  m_dLongitude : ℚ
  m_dAltitudeMSL : ℚ
  m_dHDOP : ℚ
deriving DecidableEq

/-- The RMC record decoded by the NMEA library
(`CNMEAParserData::RMC_DATA_T`); only the fields consumed by
`SetGpsRMC_Data` (lines 148-152) are carried. -/
structure RMC_DATA where
  m_dLatitude : ℚ
  m_dLongitude : ℚ
  m_dAltitudeMSL : ℚ
  m_dSpeedKnots : ℚ
  m_dTrackAngle : ℚ
deriving DecidableEq

/-- One entry of the library GSV satellite array
(`CNMEAParserData::SAT_INFO_T`). -/
structure SAT_INFO where
  nPRN : ℤ
  nSNR : ℤ
  dElevation : ℚ
  dAzimuth : ℚ

/-- The GSV record decoded by the NMEA library
(`CNMEAParserData::GSV_DATA_T`).  `satInfo` models the library-side array
`SatInfo[]` as a total function so out-of-range reads stay expressible. -/
structure GSV_DATA where
  nSatsInView : ℕ
  satInfo : ℕ → SAT_INFO

/-- The GSA record decoded by the NMEA library
(`CNMEAParserData::GSA_DATA_T`); `SetGpsGSA_Data` only logs these fields. -/
structure GSA_DATA where
  nAutoMode : ℤ
  nMode : ℤ
  dPDOP : ℚ
  dHDOP : ℚ
  dVDOP : ℚ
  uGGACount : ℕ

/-- `ParserNmea::sendLocationUpdates` (lines 46-58): builds a
`GpsLocation` snapshot of the full current fix state and passes it to
`parser_loc_cb`.  `now` is the wall-clock timestamp `getCurrentTime()`. -/
def sendLocationUpdates (now : ℤ) (d : GpsData) : GpsLocation :=
  { latitude := d.latitude
    longitude := d.longitude
    altitude := d.altitude
    speed := d.speed
    accuracy := d.horizAccuracy
    timestamp := now }

/-- `ParserNmea::sendNmeaUpdates` (lines 60-63): invokes `parser_nmea_cb`
with (timestamp, raw text, strlen) when the raw pointer is non-null. -/
def sendNmeaUpdates (now : ℤ) : Option String → List Event
  | none => []
  | some raw => [Event.nmea now raw raw.length]

/-- `ParserNmea::SetGpsGGA_Data` (lines 65-88): merge the GGA fields into
the fix state (latitude, longitude, altitude, horizontal accuracy = HDOP),
then emit a location snapshot followed by the raw-sentence event. -/
def SetGpsGGA_Data (ggaData : GGA_DATA) (nmea_data : Option String) (now : ℤ)
    (d : GpsData) : GpsData × List Event :=
  let d2 : GpsData :=
    { d with latitude := ggaData.m_dLatitude
             longitude := ggaData.m_dLongitude
             altitude := ggaData.m_dAltitudeMSL
             horizAccuracy := ggaData.m_dHDOP }
  (d2, Event.location (sendLocationUpdates now d2) :: sendNmeaUpdates now nmea_data)

/-- Indices of `sv_status.sv_list` written by the copy loop in
`SetGpsGSV_Data` (lines 95-100): `for (i = 0; i < num_svs; i++)` with
`num_svs = gsvData.nSatsInView` — the loop bound is the satellite count
itself, not the capacity of the destination array. -/
def gsvWriteIndices (gsvData : GSV_DATA) : List ℕ :=
  List.range gsvData.nSatsInView

/-- `ParserNmea::SetGpsGSV_Data` (lines 90-113): build a `GpsSvStatus`
with `num_svs = nSatsInView` and one `sv_list` entry written per loop
index, then emit the satellite-status event followed by the raw-sentence
event.  The fix state is not touched. -/
def SetGpsGSV_Data (gsvData : GSV_DATA) (nmea_data : Option String) (now : ℤ)
    (d : GpsData) : GpsData × List Event :=
  let sv_status : GpsSvStatus :=
    { num_svs := gsvData.nSatsInView
      sv_list := (gsvWriteIndices gsvData).map (fun i =>
        { prn := (gsvData.satInfo i).nPRN
          snr := ((gsvData.satInfo i).nSNR : ℚ)
          elevation := (gsvData.satInfo i).dElevation
          azimuth := (gsvData.satInfo i).dAzimuth }) }
  (d, Event.svStatus sv_status :: sendNmeaUpdates now nmea_data)

/-- `ParserNmea::SetGpsGSA_Data` (lines 115-126): only logs the GSA
record and emits the raw-sentence event; the fix state is not touched. -/
def SetGpsGSA_Data (_gsaData : GSA_DATA) (nmea_data : Option String) (now : ℤ)
    (d : GpsData) : GpsData × List Event :=
  (d, sendNmeaUpdates now nmea_data)

/-- `ParserNmea::SetGpsRMC_Data` (lines 128-158): merge the RMC fields
into the fix state (latitude, longitude, altitude, speed = knots × 0.514,
direction = track angle), then emit a location snapshot followed by the
raw-sentence event. -/
def SetGpsRMC_Data (rmcData : RMC_DATA) (nmea_data : Option String) (now : ℤ)
    (d : GpsData) : GpsData × List Event :=
  let d2 : GpsData :=
    { d with latitude := rmcData.m_dLatitude
             longitude := rmcData.m_dLongitude
             altitude := rmcData.m_dAltitudeMSL
             speed := rmcData.m_dSpeedKnots * (0.514 : ℚ)
             direction := rmcData.m_dTrackAngle }
  (d2, Event.location (sendLocationUpdates now d2) :: sendNmeaUpdates now nmea_data)

/-- `SetGpsStatus` (lines 160-166): emit one session-status event through
`parser_status_cb`. -/
def SetGpsStatus (status : GpsStatusVal) : List Event :=
  [Event.status status]

/-- Boolean test that `p` is an initial segment of `l` (helper for the
`strstr` model). -/
def leadEq : List Char → List Char → Bool
  | [], _ => true
  | _ :: _, [] => false
  | a :: as, b :: bs => a == b && leadEq as bs

/-- Boolean test that `p` occurs as a contiguous run somewhere in `l`
(the semantics of C `strstr(l, p) != NULL`). -/
def strstrList : List Char → List Char → Bool
  | p, [] => leadEq p []
  | p, c :: rest => leadEq p (c :: rest) || strstrList p rest

/-- C `strstr(hay, pat) != NULL` on the underlying character lists. -/
def strstrContains (hay pat : String) : Bool :=
  strstrList pat.data hay.data

/-- The `snprintf(nmea_data, len, "$%.5s,%s*%.2s", pCmd, pData, checksum)`
format of lines 174-176: dollar sign, at most five characters of the
command, comma, the data payload, star, at most two characters of the
checksum.  (The `len` bound never truncates further: `len` is
`strlen(pCmd) + strlen(pData) + 7` while the formatted text needs at most
`min 5 |pCmd| + |pData| + 5` bytes.) -/
def formatNmea (pCmd pData checksum : String) : String :=
  "$" ++ String.mk (pCmd.data.take 5) ++ "," ++ pData ++ "*"
    ++ String.mk (checksum.data.take 2)

/-- Modelled from the spec: the decode getters of the vendored NMEA
library (`GetGPGGA`, `GetGPGSV`, `GetGPGSA`, `GetGPRMC`, absent from
src/).  `some record` models a getter returning `ERROR_OK` together with
the decoded record; `none` models any non-OK result. -/
structure DecodeOracle where
  gga : Option GGA_DATA
  gsv : Option GSV_DATA
  gsa : Option GSA_DATA
  rmc : Option RMC_DATA

/-- `ParserNmea::ProcessRxCommand` (lines 168-221): format the raw
sentence text, then dispatch on the command string using `strstr`
containment tests, in source order GPGGA, GPGSV, GPGSA, GPRMC.  On a
recognized command whose getter succeeds, the corresponding task is
enqueued to the worker pool (modelled by appending its events to the
trace); in every other case — getter failure or unrecognized command —
the raw text buffer is freed and nothing is emitted.  The base-class
decode step and the getters live in the vendored library, supplied here
by the `DecodeOracle`. -/
def ProcessRxCommand (o : DecodeOracle) (pCmd pData checksum : String)
    (now : ℤ) (d : GpsData) : GpsData × List Event :=
  let nmea_data : String := formatNmea pCmd pData checksum
  if strstrContains pCmd "GPGGA" then
    match o.gga with
    | some ggaData => SetGpsGGA_Data ggaData (some nmea_data) now d
    | none => (d, [])
  else if strstrContains pCmd "GPGSV" then
    match o.gsv with
    | some gsvData => SetGpsGSV_Data gsvData (some nmea_data) now d
    | none => (d, [])
  else if strstrContains pCmd "GPGSA" then
    match o.gsa with
    | some gsaData => SetGpsGSA_Data gsaData (some nmea_data) now d
    | none => (d, [])
  else if strstrContains pCmd "GPRMC" then
    match o.rmc with
    | some rmcData => SetGpsRMC_Data rmcData (some nmea_data) now d
    | none => (d, [])
  else
    (d, [])

/-- `ParserNmea::init` (lines 253-258): set the sentinel value -1 on
altitude, speed, direction and horizontal accuracy.  Latitude and
longitude are not assigned. -/
def initGpsData (g : GpsData) : GpsData :=
  { g with altitude := -1, speed := -1, direction := -1, horizAccuracy := -1 }

/-- `ParserNmea::deinit` (lines 260-263): `ResetData()` resets the
vendored decoder (no field of this model) and `memset` zeroes the whole
fix state. -/
def deinitGpsData (_g : GpsData) : GpsData :=
  gpsDataZero

/-- The mutable members of the `ParserNmea` singleton that the session
lifecycle touches: the file handle (`mNmeaFp`, as an open/closed flag —
its read position is tracked explicitly by the read-loop model), the
resume offset `mSeekOffset`, the stop flag `mStopParser`, the worker pool
`mParserThreadPoolObj` (as the interval it was constructed with, `none`
when the pool does not exist), the fix state `mGpsData`, and whether the
inotify watch on the NMEA directory is currently registered. -/
structure ParserState where
  mNmeaFpOpen : Bool
  mSeekOffset : ℕ
  mStopParser : Bool
  poolInterval : Option ℤ
  mGpsData : GpsData
  inotifyRegistered : Bool
deriving DecidableEq

/-- The external world `startParsing` reads: the tracked NMEA file
(`none` when `fopen` fails because the file is missing; otherwise its
byte content) and the mock configuration (`none` when
`gps_config_load_file` returns no key file; `some v` when the key file
loads and `g_key_file_get_integer(..., "LATENCY", NULL)` yields `v`,
with `v = 0` encoding an absent or zero key per glib semantics). -/
structure Env where
  file : Option (List ℕ)
  config : Option ℤ

/-- Modelled from the spec: the default latency constant
(`DEFAULT_LATENCY` from gps_storage.h, not under src/) used when the
`LATENCY` key is absent or zero; the properties proved here do not depend
on its numeric value. -/
def DEFAULT_LATENCY : ℤ := 1000

/-- Modelled from the spec: one `ProcessNMEABuffer` call of the vendored
decoder on a 512-byte chunk.  Given the chunk and the current fix state
it returns whether the call succeeded (`ERROR_OK`), the fix state after
any decoded GGA/RMC sentences were applied, and the events dispatched for
the sentences found in the chunk. -/
def ProcOracle : Type :=
  List ℕ → GpsData → Bool × GpsData × List Event

/-- The decoder run in which no complete sentence is found in any chunk:
every `ProcessNMEABuffer` call succeeds, leaves the fix state unchanged
and dispatches nothing (e.g. the file holds no `$...*CC` frame). -/
def procNoSentence : ProcOracle :=
  fun _ d => (true, d, [])

/-- The successive buffers `fread` hands to `ProcessNMEABuffer` when the
loop of lines 316-335 runs from a given remainder of the file to
end-of-file without a stop or an error: full 512-byte chunks while at
least 512 bytes remain, then the final short chunk (possibly empty —
`feof` becomes true only after the read that falls short). -/
def chunks512 (l : List ℕ) : List (List ℕ) :=
  if _h : 512 ≤ l.length then
    l.take 512 :: chunks512 (l.drop 512)
  else
    [l]
termination_by l.length
decreasing_by
  simp only [List.length_drop]
  omega

/-- The reading loop of `ParserNmea::startParsing` (lines 315-344).
Arguments: the buffer-processing oracle, the bytes of the file from the
current read position onward, the parser state, and the event and fed-
buffer traces accumulated so far.  Per iteration (matching the source
order): check the stop flag — on stop, clear it, close the file and
return `true`; otherwise `fread` up to 512 bytes and hand them to
`ProcessNMEABuffer` — on error return `false` without advancing
`mSeekOffset` (and without closing the file, as in the source); on
success advance `mSeekOffset` by the bytes read and continue until
`feof`, which becomes true with the first read shorter than 512 bytes.
After the loop: close the file, register the inotify watch, return
`false` (lines 337-344). -/
def readLoop (proc : ProcOracle) (rest : List ℕ) (st : ParserState)
    (evs : List Event) (fed : List (List ℕ)) :
    Bool × ParserState × List Event × List (List ℕ) :=
  if st.mStopParser then
    (true, { st with mStopParser := false, mNmeaFpOpen := false }, evs, fed)
  else
    match proc (rest.take 512) st.mGpsData with
    | (false, d2, evs2) =>
        (false, { st with mGpsData := d2 }, evs ++ evs2, fed ++ [rest.take 512])
    | (true, d2, evs2) =>
        if _h : 512 ≤ rest.length then
          readLoop proc (rest.drop 512)
            { st with mGpsData := d2
                      mSeekOffset := st.mSeekOffset + (rest.take 512).length }
            (evs ++ evs2) (fed ++ [rest.take 512])
        else
          (false,
           { st with mGpsData := d2
                     mSeekOffset := st.mSeekOffset + (rest.take 512).length
                     mNmeaFpOpen := false
                     inotifyRegistered := true },
           evs ++ evs2, fed ++ [rest.take 512])
termination_by rest.length
decreasing_by
  simp only [List.length_drop]
  omega

/-- `ParserNmea::startParsing` (lines 280-345).  In source order: `fopen`
the tracked file — on failure return `false` (the member `mNmeaFp` holds
the null result); on success run `init()` and emit `SessionBegin`; load
the configuration — if no key file is available return `false` (the file
stays open); read `LATENCY`, falling back to `DEFAULT_LATENCY` when it is
zero or absent, and construct the worker pool with `interval =
latency / 2` if it does not already exist; `fseek` to `mSeekOffset` when
it is non-zero; then run the reading loop.  The result carries the return
value, the final state, the events dispatched, and the trace of buffers
fed to the decoder. -/
def startParsing (env : Env) (proc : ProcOracle) (st : ParserState) :
    Bool × ParserState × List Event × List (List ℕ) :=
  match env.file with
  | none => (false, { st with mNmeaFpOpen := false }, [], [])
  | some content =>
    let st1 : ParserState := { st with mNmeaFpOpen := true }
    let st2 : ParserState := { st1 with mGpsData := initGpsData st1.mGpsData }
    let evs := SetGpsStatus GpsStatusVal.sessionBegin
    match env.config with
    | none => (false, st2, evs, [])
    | some latencyKey =>
      let latency : ℤ := if latencyKey = 0 then DEFAULT_LATENCY else latencyKey
      let interval : ℤ := latency / 2
      let st3 : ParserState :=
        if st2.poolInterval = none then { st2 with poolInterval := some interval } else st2
      let rest : List ℕ :=
        if st3.mSeekOffset ≠ 0 then content.drop st3.mSeekOffset else content
      readLoop proc rest st3 evs []

/-- `ParserNmea::stopParsing` (lines 347-367).  Unconditionally: zero
`mSeekOffset`, unregister the inotify watch, destroy the worker pool,
and — only if the file handle is open — raise the stop flag and close
it; then emit `SessionEnd` and run `deinit()`.  Always returns `true`. -/
def stopParsing (st : ParserState) :
    Bool × ParserState × List Event :=
  let st1 : ParserState :=
    { st with mSeekOffset := 0, inotifyRegistered := false, poolInterval := none }
  let st2 : ParserState :=
    if st1.mNmeaFpOpen then { st1 with mStopParser := true, mNmeaFpOpen := false } else st1
  let st3 : ParserState := { st2 with mGpsData := deinitGpsData st2.mGpsData }
  (true, st3, SetGpsStatus GpsStatusVal.sessionEnd)

theorem chunks512_short {l : List ℕ} (h : l.length < 512) : chunks512 l = [l] := by
  rw [chunks512]
  simp [Nat.not_le.mpr h]

theorem chunks512_long {l : List ℕ} (h : 512 ≤ l.length) :
    chunks512 l = l.take 512 :: chunks512 (l.drop 512) := by
  rw [chunks512]
  simp [h]

/-- A run of the reading loop under the no-sentence decoder oracle, with
the stop flag clear, reads every remaining byte: it returns `false`,
advances `mSeekOffset` by the number of remaining bytes, closes the file,
registers the inotify watch, dispatches nothing, and feeds the decoder
exactly the 512-byte chunking of the remaining bytes. -/
theorem readLoop_noSentence_bounded (n : ℕ) :
    ∀ (rest : List ℕ), rest.length ≤ n → ∀ (st : ParserState),
      st.mStopParser = false → ∀ (evs : List Event) (fed : List (List ℕ)),
      readLoop procNoSentence rest st evs fed =
        (false,
         { st with mSeekOffset := st.mSeekOffset + rest.length
                   mNmeaFpOpen := false
                   inotifyRegistered := true },
         evs, fed ++ chunks512 rest) := by
  induction n with
  | zero =>
    intro rest hlen st hstop evs fed
    have hnil : rest = [] := List.eq_nil_of_length_eq_zero (Nat.le_zero.mp hlen)
    subst hnil
    rw [readLoop, chunks512_short (by simp)]
    simp [hstop, procNoSentence]
  | succ n ih =>
    intro rest hlen st hstop evs fed
    rw [readLoop]
    simp only [hstop, Bool.false_eq_true, if_false, procNoSentence]
    by_cases h512 : 512 ≤ rest.length
    · rw [dif_pos h512]
      rw [ih (rest.drop 512) (by simp only [List.length_drop]; omega) _ rfl]
      rw [chunks512_long h512]
      have harith : st.mSeekOffset + (List.take 512 rest).length
          + (List.drop 512 rest).length = st.mSeekOffset + rest.length := by
        simp only [List.length_take, List.length_drop]
        omega
      rw [harith]
      simp
    · rw [dif_neg h512]
      rw [chunks512_short (by omega)]
      have htake : rest.take 512 = rest := List.take_of_length_le (by omega)
      simp [htake]

/-- Unconditional closed form of the reading loop under the no-sentence
decoder oracle: if the stop flag is raised the loop consumes it and
returns `true`; otherwise it reads every remaining byte, advances
`mSeekOffset` by their count, closes the file, registers the inotify
watch, returns `false`, and feeds the decoder exactly the 512-byte
chunking of the remaining bytes. -/
theorem readLoop_noSentence (rest : List ℕ) (st : ParserState)
    (evs : List Event) (fed : List (List ℕ)) :
    readLoop procNoSentence rest st evs fed =
      if st.mStopParser then
        (true, { st with mStopParser := false, mNmeaFpOpen := false }, evs, fed)
      else
        (false,
         { st with mSeekOffset := st.mSeekOffset + rest.length
                   mNmeaFpOpen := false
                   inotifyRegistered := true },
         evs, fed ++ chunks512 rest) := by
  by_cases hs : st.mStopParser = true
  · rw [readLoop]
    simp [hs]
  · have hs2 : st.mStopParser = false := by simpa using hs
    rw [readLoop_noSentence_bounded rest.length rest le_rfl st hs2]
    simp [hs2]

/-- Closed form of `startParsing` when the tracked file and the key file
are both present, the decoder finds no complete sentence in any chunk,
and the stop flag is clear: the call runs `init()`, emits exactly one
`SessionBegin`, constructs the worker pool with interval `latency / 2`
(falling back to `DEFAULT_LATENCY` when the key value is zero) if no pool
exists yet, seeks to `mSeekOffset`, feeds the decoder the 512-byte
chunking of the bytes from that offset on, advances `mSeekOffset` past
them, closes the file, registers the inotify watch and returns `false`. -/
theorem startParsing_noSentence (content : List ℕ) (latencyKey : ℤ)
    (st : ParserState) (h : st.mStopParser = false) :
    startParsing { file := some content, config := some latencyKey } procNoSentence st =
      (false,
       { st with
           mNmeaFpOpen := false
           mGpsData := initGpsData st.mGpsData
           mSeekOffset := st.mSeekOffset + (content.drop st.mSeekOffset).length
           poolInterval :=
             if st.poolInterval = none
               then some ((if latencyKey = 0 then DEFAULT_LATENCY else latencyKey) / 2)
               else st.poolInterval
           inotifyRegistered := true },
       [Event.status GpsStatusVal.sessionBegin],
       chunks512 (content.drop st.mSeekOffset)) := by
  rw [startParsing]
  simp only [SetGpsStatus]
  by_cases hpool : st.poolInterval = none <;>
    by_cases hoff : st.mSeekOffset = 0 <;>
      simp only [hpool, hoff, ne_eq, not_true_eq_false, not_false_eq_true, if_true,
        if_false, ite_true, ite_false] <;>
    rw [readLoop_noSentence] <;>
    simp [h, hoff, List.drop_zero]

/-- Sample fix state with distinctive per-field values. -/
def gpsDataSample : GpsData :=
  { latitude := 1, longitude := 2, altitude := 3, speed := 7
    direction := 4, horizAccuracy := 5 }

/-- A parser state as left mid-session: file handle open, non-zero resume
offset, worker pool present, populated fix state. -/
def stRunningSample : ParserState :=
  { mNmeaFpOpen := true, mSeekOffset := 3, mStopParser := false
    poolInterval := some 500, mGpsData := gpsDataSample, inotifyRegistered := false }

/-- An idle parser state carrying a stale resume offset of 2. -/
def stIdleSample : ParserState :=
  { mNmeaFpOpen := false, mSeekOffset := 2, mStopParser := false
    poolInterval := none, mGpsData := gpsDataZero, inotifyRegistered := false }

/-- Sample GGA record: altitude 545.4 m, HDOP 0.9. -/
def ggaSample : GGA_DATA :=
  { m_dLatitude := 48, m_dLongitude := 11, m_dAltitudeMSL := 2727/5, m_dHDOP := 9/10 }

/-- Sample RMC record whose altitude field is zero (an RMC sentence does
not carry altitude) and whose ground speed is 10 knots. -/
def rmcSample : RMC_DATA :=
  { m_dLatitude := 48, m_dLongitude := 11, m_dAltitudeMSL := 0
    m_dSpeedKnots := 10, m_dTrackAngle := 80 }

/-- Sample GSV record reporting 33 satellites in view. -/
def gsvSample : GSV_DATA :=
  { nSatsInView := 33
    satInfo := fun _ => { nPRN := 1, nSNR := 20, dElevation := 45, dAzimuth := 180 } }

/-- A decode oracle on which every getter succeeds. -/
def oracleSample : DecodeOracle :=
  { gga := some ggaSample, gsv := some gsvSample, gsa := none, rmc := some rmcSample }

/-- The location event produced by applying `rmcSample` to the all-zero
fix state at timestamp 0. -/
def locSampleRmc : GpsLocation :=
  { latitude := 48, longitude := 11, altitude := 0
    speed := 10 * (0.514 : ℚ), accuracy := 0, timestamp := 0 }

/-- C1 counterexample: with the tracked file present (bytes 36, 71 are
the text dollar-G) but the configuration source missing, `startParsing`
returns failure and never enters the reading loop — no buffer is fed to
the decoder and no worker pool is constructed — instead of falling back
to the default latency and proceeding. -/
theorem configFile_missing_fatal :
    (startParsing { file := some [36, 71], config := none } procNoSentence stIdleSample).1
      = false ∧
    (startParsing { file := some [36, 71], config := none } procNoSentence stIdleSample).2.2.2
      = [] ∧
    (startParsing { file := some [36, 71], config := none } procNoSentence
        stIdleSample).2.1.poolInterval = none :=
  ⟨rfl, rfl, rfl⟩

/-- C1 (corrected): a missing configuration source at session start is
fatal (`startParsing` returns failure; see the counterexample).  The
non-fatal fallback exists one level deeper: when the configuration loads
but its LATENCY key is absent or zero (read as 0), the session falls back
to `DEFAULT_LATENCY`, builds the worker pool with half that latency and
proceeds through the reading loop (registering the end-of-file watch),
feeding the decoder from the current offset. -/
theorem latency_key_fallback (content : List ℕ) (st : ParserState)
    (h1 : st.mStopParser = false) (h2 : st.poolInterval = none) :
    (startParsing { file := some content, config := some 0 }
        procNoSentence st).2.1.poolInterval = some (DEFAULT_LATENCY / 2) ∧
    (startParsing { file := some content, config := some 0 }
        procNoSentence st).2.1.inotifyRegistered = true ∧
    (startParsing { file := some content, config := some 0 } procNoSentence st).2.2.2
      = chunks512 (content.drop st.mSeekOffset) := by
  rw [startParsing_noSentence content 0 st h1]
  simp [h2]

/-- C1 witness: the fallback theorem evaluated on a one-byte file and the
idle sample state. -/
theorem latency_key_fallback_witness :
    (startParsing { file := some [36], config := some 0 }
        procNoSentence stIdleSample).2.1.poolInterval = some (DEFAULT_LATENCY / 2) ∧
    (startParsing { file := some [36], config := some 0 }
        procNoSentence stIdleSample).2.1.inotifyRegistered = true ∧
    (startParsing { file := some [36], config := some 0 } procNoSentence stIdleSample).2.2.2
      = chunks512 (([36] : List ℕ).drop stIdleSample.mSeekOffset) :=
  latency_key_fallback [36] stIdleSample rfl rfl

/-- C2 counterexample: calling `startParsing` while a session is in
progress (file handle open, fix state populated, offset 3, pool built) is
not a success-returning no-op: the call returns `false`, emits a second
`SessionBegin`, and re-applies the fix-state sentinels (speed 7 becomes
-1). -/
theorem startParsing_not_idempotent :
    (startParsing { file := some [36, 71, 80, 82], config := some 0 }
        procNoSentence stRunningSample).1 = false ∧
    Event.status GpsStatusVal.sessionBegin
      ∈ (startParsing { file := some [36, 71, 80, 82], config := some 0 }
          procNoSentence stRunningSample).2.2.1 ∧
    (startParsing { file := some [36, 71, 80, 82], config := some 0 }
        procNoSentence stRunningSample).2.1.mGpsData.speed = -1 ∧
    stRunningSample.mGpsData.speed = 7 := by
  rw [startParsing_noSentence [36, 71, 80, 82] 0 stRunningSample rfl]
  exact ⟨rfl, List.mem_singleton.mpr rfl, rfl, rfl⟩

/-- C2 (corrected): `startParsing` performs no running-session check:
from any prior state with the stop flag clear it re-opens the file,
re-applies the fix-state sentinels, emits another `SessionBegin`, and
re-enters the reading loop.  What it does preserve is `mSeekOffset`,
which it uses as the resume point instead of resetting it. -/
theorem startParsing_reinitializes (content : List ℕ) (latencyKey : ℤ)
    (st : ParserState) (h : st.mStopParser = false) :
    (startParsing { file := some content, config := some latencyKey }
        procNoSentence st).2.2.1 = [Event.status GpsStatusVal.sessionBegin] ∧
    (startParsing { file := some content, config := some latencyKey }
        procNoSentence st).2.1.mGpsData = initGpsData st.mGpsData ∧
    (startParsing { file := some content, config := some latencyKey }
        procNoSentence st).2.2.2 = chunks512 (content.drop st.mSeekOffset) := by
  rw [startParsing_noSentence content latencyKey st h]
  exact ⟨rfl, rfl, rfl⟩

/-- C2 witness: the re-initialization theorem evaluated on the running
sample state. -/
theorem startParsing_reinitializes_witness :
    (startParsing { file := some [36, 71], config := some 0 }
        procNoSentence stRunningSample).2.2.1
      = [Event.status GpsStatusVal.sessionBegin] ∧
    (startParsing { file := some [36, 71], config := some 0 }
        procNoSentence stRunningSample).2.1.mGpsData
      = initGpsData stRunningSample.mGpsData ∧
    (startParsing { file := some [36, 71], config := some 0 }
        procNoSentence stRunningSample).2.2.2
      = chunks512 (([36, 71] : List ℕ).drop stRunningSample.mSeekOffset) :=
  startParsing_reinitializes [36, 71] 0 stRunningSample rfl

/-- C3 counterexample: `init()` does not reset latitude to the sentinel
-1: a prior latitude of 1 survives session start, refuting the claim that
every scalar field of the fix state is reset to -1. -/
theorem initGpsData_keeps_latitude :
    (initGpsData gpsDataSample).latitude = 1 ∧ (1 : ℚ) ≠ -1 :=
  ⟨rfl, by norm_num⟩

/-- C3 (corrected): at session start `init()` resets altitude, speed,
direction and horizontal accuracy to the sentinel -1 but leaves latitude
and longitude unchanged; at session end (`stopParsing`, via `deinit()`)
every field of the fix state is zeroed. -/
theorem fixstate_sentinel_fields (g : GpsData) (st : ParserState) :
    (initGpsData g).altitude = -1 ∧ (initGpsData g).speed = -1 ∧
    (initGpsData g).direction = -1 ∧ (initGpsData g).horizAccuracy = -1 ∧
    (initGpsData g).latitude = g.latitude ∧ (initGpsData g).longitude = g.longitude ∧
    (stopParsing st).2.1.mGpsData = gpsDataZero :=
  ⟨rfl, rfl, rfl, rfl, rfl, rfl, rfl⟩

/-- C4: `stopParsing` resets `mSeekOffset` to 0; a completed read pass
advances `mSeekOffset` by exactly the number of bytes read from the
resume offset onward; a stop followed by a new start feeds the decoder
the file from byte 0; and a start with a preserved offset (the
notification-triggered resume path) feeds the decoder exactly the bytes
from that offset on. -/
theorem readOffset_lifecycle (content content2 : List ℕ) (st : ParserState)
    (h1 : st.mStopParser = false) (h2 : st.mNmeaFpOpen = false) :
    (stopParsing st).2.1.mSeekOffset = 0 ∧
    (startParsing { file := some content, config := some 0 }
        procNoSentence st).2.1.mSeekOffset
      = st.mSeekOffset + (content.drop st.mSeekOffset).length ∧
    (startParsing { file := some content, config := some 0 } procNoSentence
        ((stopParsing st).2.1)).2.2.2 = chunks512 content ∧
    (startParsing { file := some content2, config := some 0 }
        procNoSentence st).2.2.2 = chunks512 (content2.drop st.mSeekOffset) := by
  have hstopState : (stopParsing st).2.1
      = { st with mSeekOffset := 0, inotifyRegistered := false
                  poolInterval := none, mGpsData := gpsDataZero } := by
    unfold stopParsing deinitGpsData
    simp [h2]
  refine ⟨?_, ?_, ?_, ?_⟩
  · rw [hstopState]
  · rw [startParsing_noSentence content 0 st h1]
  · rw [hstopState, startParsing_noSentence content 0]
    · simp
    · exact h1
  · rw [startParsing_noSentence content2 0 st h1]

/-- C4 witness: the offset-lifecycle theorem evaluated on three- and
four-byte files and the idle sample state (offset 2). -/
theorem readOffset_lifecycle_witness :
    (stopParsing stIdleSample).2.1.mSeekOffset = 0 ∧
    (startParsing { file := some [36, 71, 80], config := some 0 }
        procNoSentence stIdleSample).2.1.mSeekOffset
      = stIdleSample.mSeekOffset
        + (([36, 71, 80] : List ℕ).drop stIdleSample.mSeekOffset).length ∧
    (startParsing { file := some [36, 71, 80], config := some 0 } procNoSentence
        ((stopParsing stIdleSample).2.1)).2.2.2 = chunks512 [36, 71, 80] ∧
    (startParsing { file := some [36, 71, 80, 82], config := some 0 }
        procNoSentence stIdleSample).2.2.2
      = chunks512 (([36, 71, 80, 82] : List ℕ).drop stIdleSample.mSeekOffset) :=
  readOffset_lifecycle [36, 71, 80] [36, 71, 80, 82] stIdleSample rfl rfl

/-- C5: every location event emitted by applying a decoded RMC sentence
carries speed equal to the RMC ground speed in knots times 0.514
(knots-to-m/s conversion as written in the source). -/
theorem rmc_speed_conversion (rmcData : RMC_DATA) (nmea_data : Option String)
    (now : ℤ) (d : GpsData) (l : GpsLocation)
    (h : Event.location l ∈ (SetGpsRMC_Data rmcData nmea_data now d).2) :
    l.speed = rmcData.m_dSpeedKnots * (0.514 : ℚ) := by
  cases nmea_data <;>
    simp only [SetGpsRMC_Data, sendLocationUpdates, sendNmeaUpdates, List.mem_cons,
      List.not_mem_nil, or_false, Event.location.injEq, reduceCtorEq] at h <;>
  subst h <;> rfl

/-- C5 witness: the RMC sample (10 knots) applied to the zero fix state
emits `locSampleRmc`, whose speed is 10 times 0.514. -/
theorem rmc_speed_conversion_witness :
    locSampleRmc.speed = rmcSample.m_dSpeedKnots * (0.514 : ℚ) :=
  rmc_speed_conversion rmcSample none 0 gpsDataZero locSampleRmc
    (List.mem_singleton.mpr rfl)

/-- C6 counterexample: applying `ggaSample` (altitude 545.4) and then
`rmcSample` (an RMC record that does not redefine altitude: its altitude
field is 0) emits a second location event whose altitude is 0, not the
GGA-set 545.4 — the RMC application overwrites altitude rather than
retaining it. -/
theorem rmc_overwrites_gga_altitude :
    (SetGpsGGA_Data ggaSample none 0 gpsDataZero).1.altitude = 2727/5 ∧
    (SetGpsRMC_Data rmcSample none 0
        (SetGpsGGA_Data ggaSample none 0 gpsDataZero).1).2
      = [Event.location { latitude := 48, longitude := 11, altitude := 0
                          speed := 10 * (0.514 : ℚ), accuracy := 9/10, timestamp := 0 }] ∧
    (0 : ℚ) ≠ 2727/5 :=
  ⟨rfl, rfl, by norm_num⟩

/-- C6 (corrected): applying GGA then RMC emits a location event after
each application, and fields are indeed merged rather than replaced
wholesale — the second event's horizontal accuracy retains the GGA-set
HDOP — but altitude is not among the retained fields: the RMC application
always overwrites it with the RMC record's own altitude field. -/
theorem gga_rmc_merge (ggaData : GGA_DATA) (rmcData : RMC_DATA)
    (n1 n2 : Option String) (t1 t2 : ℤ) (d : GpsData) :
    ∃ l1 l2 : GpsLocation,
      (SetGpsGGA_Data ggaData n1 t1 d).2.head? = some (Event.location l1) ∧
      (SetGpsRMC_Data rmcData n2 t2 (SetGpsGGA_Data ggaData n1 t1 d).1).2.head?
        = some (Event.location l2) ∧
      l1.altitude = ggaData.m_dAltitudeMSL ∧
      l2.accuracy = ggaData.m_dHDOP ∧
      l2.altitude = rmcData.m_dAltitudeMSL :=
  ⟨_, _, rfl, rfl, rfl, rfl, rfl⟩

/-- C7 counterexample: a complete sentence whose talker/type code GPXYZ
is unrecognized produces no events at all — the formatted raw text is
freed without a raw-sentence event being emitted, even with a decode
oracle on which every getter succeeds. -/
theorem unrecognized_command_drops_raw :
    (ProcessRxCommand oracleSample "GPXYZ" "1,2,3" "4A" 0 gpsDataSample).2 = [] := by
  decide

/-- C7 (corrected): there is no raw-sentence pass-through for
unrecognized codes: whenever the command contains none of GPGGA, GPGSV,
GPGSA, GPRMC, `ProcessRxCommand` frees the formatted text and returns
with the fix state unchanged and no events emitted. -/
theorem unrecognized_no_events (o : DecodeOracle) (pCmd pData checksum : String)
    (now : ℤ) (d : GpsData)
    (h1 : strstrContains pCmd "GPGGA" = false)
    (h2 : strstrContains pCmd "GPGSV" = false)
    (h3 : strstrContains pCmd "GPGSA" = false)
    (h4 : strstrContains pCmd "GPRMC" = false) :
    ProcessRxCommand o pCmd pData checksum now d = (d, []) := by
  unfold ProcessRxCommand
  simp [h1, h2, h3, h4]

/-- C7 witness: the no-events theorem evaluated on the unrecognized
command GPXYZ. -/
theorem unrecognized_no_events_witness :
    ProcessRxCommand oracleSample "GPXYZ" "1,2,3" "4A" 0 gpsDataSample
      = (gpsDataSample, []) :=
  unrecognized_no_events oracleSample "GPXYZ" "1,2,3" "4A" 0 gpsDataSample
    (by decide) (by decide) (by decide) (by decide)

/-- C8: if the tracked file is missing, `startParsing` returns failure
with the fix state untouched and no events emitted (in particular no
`SessionBegin`); the only state change is storing the null `fopen` result
in the file-handle member. -/
theorem startParsing_file_missing (config : Option ℤ) (proc : ProcOracle)
    (st : ParserState) :
    startParsing { file := none, config := config } proc st
      = (false, { st with mNmeaFpOpen := false }, [], []) :=
  rfl

/-- C9 (code bug): the GSV copy loop applies no cap: for any capacity of
the outgoing satellite array, a GSV record reporting more satellites than
that capacity writes an index at or beyond it, and the emitted event's
satellite count is the uncapped `nSatsInView`. -/
theorem gsv_write_overflow (cap : ℕ) (gsvData : GSV_DATA)
    (nmea_data : Option String) (now : ℤ) (d : GpsData)
    (h : cap < gsvData.nSatsInView) :
    (∃ i, i ∈ gsvWriteIndices gsvData ∧ cap ≤ i) ∧
    (∃ sv : GpsSvStatus,
      Event.svStatus sv ∈ (SetGpsGSV_Data gsvData nmea_data now d).2 ∧
      sv.num_svs = gsvData.nSatsInView) := by
  refine ⟨⟨cap, ?_, le_rfl⟩, ⟨_, List.mem_cons_self _ _, rfl⟩⟩
  simpa [gsvWriteIndices] using h

/-- C9 witness: with the nyx capacity of 32 satellite slots, the sample
GSV record reporting 33 satellites writes index 32 — one past the last
valid slot — and its event claims 33 satellites. -/
theorem gsv_write_overflow_witness :
    (∃ i, i ∈ gsvWriteIndices gsvSample ∧ 32 ≤ i) ∧
    (∃ sv : GpsSvStatus,
      Event.svStatus sv ∈ (SetGpsGSV_Data gsvSample none 0 gpsDataZero).2 ∧
      sv.num_svs = gsvSample.nSatsInView) :=
  gsv_write_overflow 32 gsvSample none 0 gpsDataZero (by norm_num [gsvSample])

/-- C10: `stopParsing` from any state — including Idle/Stopped states in
which no session is running — returns `true`, emits exactly one
`SessionEnd` status event, zeroes the fix state, resets `mSeekOffset` to
0, unregisters the watch and destroys the worker pool. -/
theorem stopParsing_unconditional (st : ParserState) :
    (stopParsing st).1 = true ∧
    (stopParsing st).2.2 = [Event.status GpsStatusVal.sessionEnd] ∧
    (stopParsing st).2.1.mGpsData = gpsDataZero ∧
    (stopParsing st).2.1.mSeekOffset = 0 ∧
    (stopParsing st).2.1.poolInterval = none ∧
    (stopParsing st).2.1.inotifyRegistered = false := by
  unfold stopParsing SetGpsStatus deinitGpsData
  by_cases h : st.mNmeaFpOpen <;> simp [h]
